import Mathlib

/-!
Verification development for the AirdropTracker repository.

The definitions below are a shallow embedding of the two crawler modules
`src/crawlers/solana_client.py` and `src/crawlers/wallet_crawler.py`.
Token amounts (Python floats holding UI-decimal token values) are modelled
as rationals, native-currency balances as integer lamports converted to
rationals, and the Supabase tables as lists of rows inside a `DB` record.
Python attribute lookup on `self` is modelled explicitly: the embedding
records which names the two classes actually define, because several
functions of the source are written at module level (or nested inside a
module-level function) even though the rest of the code calls them as
methods, and that mismatch is observable behavior.
-/

namespace AirdropTracker

attribute [local semireducible] Rat.add Rat.sub Rat.mul Rat.inv

/-- Python's `abs()` on a rational value. -/
def ratAbs (q : ℚ) : ℚ := if q < 0 then -q else q

/-- Truthiness of an optional integer id, mirroring Python where both
`None` and `0` are falsy. -/
def optTruthy : Option Nat → Bool
  | none => false
  | some n => n != 0

/-! ## Ledger feed adapter (`src/crawlers/solana_client.py`) -/

/-- Names defined on the `SolanaRPCClient` class body (methods plus the
instance attributes set in `__init__`).  The module-level functions
`get_sol_balance_change`, `detect_enhanced_trade_patterns`,
`analyze_transaction_context`, `validate_trade_legitimacy` and
`parse_enhanced_yaffa_transfers` of `solana_client.py` are written at
column 0 and are therefore not attributes of the class. -/
def solanaClientHasAttr (s : String) : Bool :=
  ["rpc_url", "yaffa_mint", "client", "close", "make_rpc_call",
   "get_token_account_balance", "get_token_transactions",
   "get_transaction_detail", "parse_yaffa_transfers",
   "is_trade_transaction", "private_get_sol_balance_change"].contains s

/-- Body of a JSON-RPC response as far as `_make_rpc_call` inspects it:
an optional protocol-level error field and an optional result. -/
structure RpcResponse (α : Type) where
  error : Option String
  result : Option α
deriving Repr, DecidableEq

/-- Embeds `SolanaRPCClient._make_rpc_call`.  The network layer is the
input: `Except.error` is an HTTP/transport failure raised by the client
library.  The function catches every exception (including the one it
raises itself when the response carries an `error` field) and returns
`None`, so it never propagates a failure. -/
def make_rpc_call {α : Type} (network : Except String (RpcResponse α)) : Option α :=
  match network with
  | Except.error _ => none
  | Except.ok resp =>
    match resp.error with
    | some _ => none
    | none => resp.result

/-- One entry of the `getTokenAccountsByOwner` result: either a
well-formed parsed account carrying `tokenAmount.uiAmount` (which may be
JSON null, read as 0 through `or 0`), or a structurally malformed entry
whose field access raises inside the summation loop. -/
inductive TokenAccount where
  | parsed (uiAmount : Option ℚ)
  | malformed
deriving Repr, DecidableEq

/-- The ui amount of one token account if it is well formed. -/
def TokenAccount.amount? : TokenAccount → Option ℚ
  | TokenAccount.parsed u => some (u.getD 0)
  | TokenAccount.malformed => none

/-- The summation loop of `get_token_account_balance`: accumulate the ui
amounts in order, aborting (raising) at the first malformed account. -/
def sumAccounts : List TokenAccount → Option ℚ
  | [] => some 0
  | a :: tl =>
    match a.amount? with
    | none => none
    | some x =>
      match sumAccounts tl with
      | none => none
      | some s => some (x + s)

/-- Embeds `SolanaRPCClient.get_token_account_balance`.  The RPC result is
the list of token accounts (the `value` field).  A `None` RPC result or an
empty/missing `value` returns 0; a malformed account raises inside the
loop and the surrounding `except` returns 0; otherwise the ui amounts are
summed. -/
def get_token_account_balance
    (network : Except String (RpcResponse (List TokenAccount))) : ℚ :=
  match make_rpc_call network with
  | none => 0
  | some accounts =>
    if accounts.isEmpty then 0
    else
      match sumAccounts accounts with
      | none => 0
      | some total => total

/-- One entry of a `getSignaturesForAddress` page. -/
structure SigInfo where
  signature : String
deriving Repr, DecidableEq

/-- One element of `meta.preTokenBalances` / `meta.postTokenBalances`. -/
structure TokenBalance where
  mint : String
  accountIndex : Nat
  uiAmount : Option ℚ
deriving Repr, DecidableEq

/-- A raw transaction body as far as the two crawler modules inspect it:
first signature, failure flag (`meta.err`), token balance snapshots,
account keys (pubkeys), native lamport balances, top-level instruction
program ids, block time and slot. -/
structure TxRec where
  signature : String
  failed : Bool
  preTokenBalances : List TokenBalance
  postTokenBalances : List TokenBalance
  accountKeys : List String
  preBalances : List Int
  postBalances : List Int
  programIds : List String
  blockTime : Nat
  slot : Nat
deriving Repr, DecidableEq

/-- Embeds `SolanaRPCClient.get_transaction_detail`: returns the RPC
result unchanged, `None` on any failure. -/
def get_transaction_detail (network : Except String (RpcResponse TxRec)) :
    Option TxRec :=
  make_rpc_call network

/-- Embeds `SolanaRPCClient.get_token_transactions`.  The signature page
is the RPC result; `detail` is the per-signature behavior of
`get_transaction_detail` (which itself never raises).  A failed or empty
signature listing yields `[]`; otherwise the non-`None` transaction
details are collected in order. -/
def get_token_transactions
    (network : Except String (RpcResponse (List SigInfo)))
    (detail : String → Option TxRec) : List TxRec :=
  match make_rpc_call network with
  | none => []
  | some entries => (entries.map SigInfo.signature).filterMap detail

/-- One entry of `parse_yaffa_transfers`: an account whose tracked-token
balance changed in a transaction. -/
structure TransferRec where
  account : String
  amount_change : ℚ
  signature : String
  timestamp : Nat
  block_height : Nat
deriving Repr, DecidableEq

/-- Replace the value stored for `k` in place, or append `(k, v)`; this is
Python dict assignment, which keeps the insertion-order position of an
existing key. -/
def upsertChange (l : List (Nat × ℚ × ℚ)) (k : Nat) (v : ℚ × ℚ) :
    List (Nat × ℚ × ℚ) :=
  match l with
  | [] => [(k, v)]
  | (k0, v0) :: tl => if k0 = k then (k, v) :: tl else (k0, v0) :: upsertChange tl k v

/-- Set only the `post` component of the entry stored for `k`
(`balance_changes[account]["post"] = amount` on an existing key). -/
def setPost (l : List (Nat × ℚ × ℚ)) (k : Nat) (post : ℚ) :
    List (Nat × ℚ × ℚ) :=
  l.map fun e => if e.1 = k then (e.1, e.2.1, post) else e

/-- Whether the change map already has an entry for `k`. -/
def hasChangeKey (l : List (Nat × ℚ × ℚ)) (k : Nat) : Bool :=
  l.any fun e => e.1 == k

/-- The `balance_changes` dict of `parse_yaffa_transfers`: pre balances of
the tracked mint first (`{pre: amount, post: 0}`), then post balances,
updating existing keys in place and appending `{pre: 0, post: amount}`
for keys seen only in the post snapshot.  A JSON-null `uiAmount` reads as
0 through `or 0`. -/
def collectChanges (mint : String) (tx : TxRec) : List (Nat × ℚ × ℚ) :=
  let preMap := tx.preTokenBalances.foldl
    (fun m b =>
      if b.mint == mint then upsertChange m b.accountIndex (b.uiAmount.getD 0, 0)
      else m) []
  tx.postTokenBalances.foldl
    (fun m b =>
      if b.mint == mint then
        if hasChangeKey m b.accountIndex then setPost m b.accountIndex (b.uiAmount.getD 0)
        else upsertChange m b.accountIndex (0, b.uiAmount.getD 0)
      else m) preMap

/-- The transfer-building loop of `parse_yaffa_transfers`: one record per
entry whose balance changed.  An account index beyond `accountKeys`
raises `IndexError`, which the surrounding `except` turns into returning
the transfers accumulated so far. -/
def buildTransfers (tx : TxRec) : List (Nat × ℚ × ℚ) → List TransferRec
  | [] => []
  | (idx, pre, post) :: tl =>
    let diff := post - pre
    if diff = 0 then buildTransfers tx tl
    else
      match tx.accountKeys[idx]? with
      | some addr =>
        { account := addr, amount_change := diff, signature := tx.signature,
          timestamp := tx.blockTime, block_height := tx.slot } :: buildTransfers tx tl
      | none => []

/-- Embeds `SolanaRPCClient.parse_yaffa_transfers` for the tracked mint
`mint` (the client's `yaffa_mint`, loaded from the environment).  A
transaction marked failed by the ledger yields no transfers. -/
def parse_yaffa_transfers (mint : String) (tx : TxRec) : List TransferRec :=
  if tx.failed then [] else buildTransfers tx (collectChanges mint tx)

/-- Embeds the module-level function `get_sol_balance_change` of
`solana_client.py` (written at column 0 after the class body, hence not
an attribute of `SolanaRPCClient`): locate the wallet among the account
keys and convert its lamport delta to SOL, returning 0 when the wallet is
not a party to the transaction. -/
def get_sol_balance_change (wallet_address : String) (tx : TxRec) : ℚ :=
  match tx.accountKeys.findIdx? (· == wallet_address) with
  | some i =>
    if i < tx.preBalances.length ∧ i < tx.postBalances.length then
      ((tx.postBalances.getD i 0 - tx.preBalances.getD i 0 : Int) : ℚ) / 1000000000
    else 0
  | none => 0

/-! ## Persistence model (the Supabase tables of `src/database/models.py`
as the crawler reads and writes them) -/

/-- One row of the `wallets` table, restricted to the columns the crawler
touches.  Aggregate columns default to 0 on insert. -/
structure WalletRow where
  id : Nat
  address : String
  mother_wallet_id : Option Nat
  parent_wallet_id : Option Nat
  generation : Int
  is_external : Bool
  discovered_by_mother : Option Nat
  total_yaffa_received : ℚ := 0
  total_yaffa_sent : ℚ := 0
  total_yaffa_sold : ℚ := 0
  total_yaffa_bought : ℚ := 0
  total_sol_received : ℚ := 0
  total_sol_spent : ℚ := 0
  net_yaffa_balance : ℚ := 0
  net_sol_balance : ℚ := 0
  lineage_yaffa_received : ℚ := 0
  lineage_yaffa_balance : ℚ := 0
  lineage_count : Nat := 0
deriving Repr, DecidableEq

/-- One row of the `transactions` table.  `orig_signature` is the
`raw_data->>original_signature` JSON field used as the global
deduplication key. -/
structure TransactionRow where
  transaction_hash : String
  from_wallet_id : Nat
  to_wallet_id : Nat
  yaffa_amount : ℚ
  timestamp : Nat
  block_height : Nat
  transaction_type : String
  is_lineage_transfer : Bool
  discovering_mother_id : Option Nat
  orig_signature : String
  from_address : String
  to_address : String
deriving Repr, DecidableEq

/-- One row of the `trades` table.  The buy/sell-specific amount columns
are optional because `record_raydium_trade` only sets the pair matching
the trade direction. -/
structure TradeRow where
  wallet_id : Nat
  transaction_hash : String
  trade_type : Option String
  yaffa_amount : ℚ
  sol_amount : ℚ
  price_per_token : ℚ
  yaffa_amount_sold : Option ℚ := none
  sol_amount_received : Option ℚ := none
  yaffa_amount_bought : Option ℚ := none
  sol_amount_spent : Option ℚ := none
deriving Repr, DecidableEq

/-- One row of the `wallet_lineages` table. -/
structure LineageRow where
  wallet_id : Nat
  mother_wallet_id : Nat
  connection_type : String
deriving Repr, DecidableEq

/-- One row of the `crawl_status` table. -/
structure CrawlStatusRow where
  wallet_address : String
  status : String
  error_message : Option String
deriving Repr, DecidableEq

/-- The mutable store shared by all crawler operations. -/
structure DB where
  wallets : List WalletRow
  transactions : List TransactionRow
  trades : List TradeRow
  wallet_lineages : List LineageRow
  crawl_status : List CrawlStatusRow
  next_wallet_id : Nat
deriving Repr, DecidableEq

/-- A store with no rows. -/
def emptyDB : DB :=
  { wallets := [], transactions := [], trades := [], wallet_lineages := [],
    crawl_status := [], next_wallet_id := 1 }

/-! ## Lineage crawler (`src/crawlers/wallet_crawler.py`) -/

/-- Names defined on the `WalletCrawler` class body (methods plus the
instance attributes set in `__init__`).  The class body ends with
`handle_multi_lineage_membership`; the later definitions of
`wallet_crawler.py` (`calculate_lineage_totals`,
`calculate_lineage_totals_for_mother`, `calculate_wallet_totals`) are at
column 0, and `record_trade`, the second `calculate_lineage_totals`,
`is_lineage_transfer` and `update_crawl_status` are nested inside the
module-level `calculate_wallet_totals`, so none of them are attributes of
the class. -/
def walletCrawlerHasAttr (s : String) : Bool :=
  ["solana_client", "processed_signatures", "max_depth", "supabase",
   "close", "crawl_all_mother_wallets", "crawl_wallet_tree",
   "get_or_create_wallet", "crawl_wallet_transactions",
   "process_transaction", "detect_raydium_interaction",
   "record_raydium_trade", "record_transfer",
   "get_or_create_wallet_for_transfer",
   "handle_multi_lineage_membership"].contains s

/-- The crawler's `self.max_depth` set in `__init__`. -/
def max_depth : Nat := 10

/-- Look a wallet up by address (`.eq('address', address)` on `wallets`). -/
def findWalletByAddress (db : DB) (address : String) : Option WalletRow :=
  db.wallets.find? (fun w => w.address == address)

/-- Embeds `WalletCrawler.get_or_create_wallet_for_transfer`.  Returns the
wallet id, the wallet record (`{**wallet_data, 'id': wallet_id}` for a
fresh row) and the updated store.  Attribution mirrors the source: a new
sender is external at generation 999; a new recipient inherits the
sender's mother and generation + 1 when the sender is lineage-attributed
and not external, becomes a generation-1 child of the discovering mother
when one is known (Python truthiness: a `None` or 0 id counts as
unknown), and is external otherwise. -/
def get_or_create_wallet_for_transfer (db : DB) (address : String)
    (discovering_mother_id : Option Nat) (is_sender : Bool)
    (sender_data : Option WalletRow) : Nat × WalletRow × DB :=
  match findWalletByAddress db address with
  | some w => (w.id, w, db)
  | none =>
    let fallback : WalletRow :=
      { id := 0, address := address,
        mother_wallet_id := if optTruthy discovering_mother_id then discovering_mother_id else none,
        parent_wallet_id := none,
        generation := if optTruthy discovering_mother_id then 1 else 999,
        is_external := discovering_mother_id.isNone,
        discovered_by_mother := discovering_mother_id }
    let wallet_data : WalletRow :=
      if is_sender then
        { id := 0, address := address, mother_wallet_id := none,
          parent_wallet_id := none, generation := 999, is_external := true,
          discovered_by_mother := discovering_mother_id }
      else
        match sender_data with
        | some s =>
          if optTruthy s.mother_wallet_id ∧ s.is_external = false then
            { id := 0, address := address, mother_wallet_id := s.mother_wallet_id,
              parent_wallet_id := some s.id, generation := s.generation + 1,
              is_external := false, discovered_by_mother := discovering_mother_id }
          else fallback
        | none => fallback
    let wallet_id := db.next_wallet_id
    let row := { wallet_data with id := wallet_id }
    (wallet_id, row,
      { db with wallets := db.wallets ++ [row], next_wallet_id := wallet_id + 1 })

/-- Embeds `WalletCrawler.handle_multi_lineage_membership`: record a
`wallet_lineages` edge for the recipient and the discovering mother when
both the discovering mother and the recipient's current primary mother
are truthy ids, they differ, the sender carries lineage information, and
the (wallet, mother) pair does not already exist. -/
def handle_multi_lineage_membership (db : DB) (to_wallet_data from_wallet_data : WalletRow)
    (discovering_mother_id : Option Nat) : DB :=
  let wallet_id := to_wallet_data.id
  let current_mother := to_wallet_data.mother_wallet_id
  let sender_mother := from_wallet_data.mother_wallet_id
  if optTruthy discovering_mother_id = false ∨ optTruthy current_mother = false then db
  else if current_mother ≠ discovering_mother_id ∧ optTruthy sender_mother then
    if (db.wallet_lineages.filter (fun l =>
          l.wallet_id == wallet_id && some l.mother_wallet_id == discovering_mother_id)).isEmpty then
      { db with wallet_lineages := db.wallet_lineages ++
          [{ wallet_id := wallet_id,
             mother_wallet_id := discovering_mother_id.getD 0,
             connection_type := "transfer" }] }
    else db
  else db

/-- Embeds `WalletCrawler.record_transfer`.  After the global signature
dedup check, the sender and recipient wallets are fetched or created, a
possible multi-lineage edge is recorded, and one `transactions` row is
inserted whose `is_lineage_transfer` flag is set exactly when the sender
record has a non-`None` mother attribution. -/
def record_transfer (db : DB) (from_address to_address : String) (amount : ℚ)
    (transfer_data : TransferRec) (discovering_mother_id : Option Nat) : DB :=
  let signature := transfer_data.signature
  if db.transactions.any (fun r => r.orig_signature == signature) then db
  else
    let unique_tx_hash := signature.take 16 ++ "_" ++ from_address.take 8 ++ "_" ++ to_address.take 8
    let r1 := get_or_create_wallet_for_transfer db from_address discovering_mother_id true none
    let from_wallet_id := r1.1
    let from_wallet_data := r1.2.1
    let db1 := r1.2.2
    let r2 := get_or_create_wallet_for_transfer db1 to_address discovering_mother_id false
      (some from_wallet_data)
    let to_wallet_id := r2.1
    let to_wallet_data := r2.2.1
    let db2 := r2.2.2
    let db3 := handle_multi_lineage_membership db2 to_wallet_data from_wallet_data
      discovering_mother_id
    let row : TransactionRow :=
      { transaction_hash := unique_tx_hash,
        from_wallet_id := from_wallet_id, to_wallet_id := to_wallet_id,
        yaffa_amount := amount, timestamp := transfer_data.timestamp,
        block_height := transfer_data.block_height,
        transaction_type := "transfer",
        is_lineage_transfer := from_wallet_data.mother_wallet_id.isSome,
        discovering_mother_id := discovering_mother_id,
        orig_signature := signature,
        from_address := from_address, to_address := to_address }
    { db3 with transactions := db3.transactions ++ [row] }

/-- Result dict of `detect_raydium_interaction`. -/
structure RaydiumInteraction where
  rtype : String
  yaffa_amount : ℚ
  sol_amount : ℚ
  price_per_token : ℚ
deriving Repr, DecidableEq

/-- The `raydium_programs` list defined inside
`detect_raydium_interaction`.  The function defines it and never reads
it: no instruction program id is ever compared against it. -/
def raydium_programs : List String :=
  ["675kPX9MHTjS2zt1qfr1NYHuzeLXfQM9H24wFSUt1Mp8",
   "9WzDXwBbmkg8ZTbNMqUxvQRAyrZzDsGYdLVL9zYtAWWM",
   "27haf8L6oxUeXrHrgEgsexjSY5hbVUWEmvv9Nyxg8vQv",
   "CAMMCzo5YL8w4VFF8KVHrK22GGUsp5VTaW7grrKgrWqK"]

/-- The loop of `detect_raydium_interaction` that finds the crawled
wallet's own token delta: the first transfer entry whose account matches,
else 0. -/
def walletYaffaChange (address : String) (transfers : List TransferRec) : ℚ :=
  match transfers.find? (fun t => t.account == address) with
  | some t => t.amount_change
  | none => 0

/-- Embeds `WalletCrawler.detect_raydium_interaction`.  The first live
statement of its `try` block evaluates
`self.solana_client.get_sol_balance_change`, and because
`get_sol_balance_change` is not an attribute of `SolanaRPCClient` (it is
a module-level function of `solana_client.py`), the lookup raises
`AttributeError`, which the `except` handler converts to `None`.  The
sign-based classification that follows in the source is kept in the
then-branch, guarded by the attribute table, so the embedding still shows
what the code would compute if the attribute existed. -/
def detect_raydium_interaction (wallet : WalletRow) (yaffa_transfers : List TransferRec)
    (tx : TxRec) : Option RaydiumInteraction :=
  if solanaClientHasAttr "get_sol_balance_change" then
    let sol_change := get_sol_balance_change wallet.address tx
    let wallet_yaffa_change := walletYaffaChange wallet.address yaffa_transfers
    if wallet_yaffa_change < 0 ∧ sol_change > 0 then
      some { rtype := "sell", yaffa_amount := -wallet_yaffa_change,
             sol_amount := sol_change,
             price_per_token :=
               if wallet_yaffa_change ≠ 0 then sol_change / (-wallet_yaffa_change) else 0 }
    else if wallet_yaffa_change > 0 ∧ sol_change < 0 then
      some { rtype := "buy", yaffa_amount := wallet_yaffa_change,
             sol_amount := -sol_change,
             price_per_token :=
               if wallet_yaffa_change ≠ 0 then (-sol_change) / wallet_yaffa_change else 0 }
    else none
  else none

/-- Embeds `WalletCrawler.record_raydium_trade`: skip when a trade for
the same (signature, wallet) pair exists, otherwise insert one `trades`
row with the direction-specific amount columns. -/
def record_raydium_trade (db : DB) (wallet : WalletRow) (raydium_data : RaydiumInteraction)
    (tx : TxRec) : DB :=
  let signature := tx.signature
  if (db.trades.filter (fun t =>
        t.transaction_hash == signature && t.wallet_id == wallet.id)).isEmpty = false then db
  else
    let base : TradeRow :=
      { wallet_id := wallet.id, transaction_hash := signature,
        trade_type := some raydium_data.rtype,
        yaffa_amount := raydium_data.yaffa_amount,
        sol_amount := raydium_data.sol_amount,
        price_per_token := raydium_data.price_per_token }
    let row :=
      if raydium_data.rtype == "sell" then
        { base with yaffa_amount_sold := some raydium_data.yaffa_amount,
                    sol_amount_received := some raydium_data.sol_amount }
      else
        { base with yaffa_amount_bought := some raydium_data.yaffa_amount,
                    sol_amount_spent := some raydium_data.sol_amount }
    { db with trades := db.trades ++ [row] }

/-- Embeds `WalletCrawler.process_transaction` for the tracked mint
`mint`: global signature dedup, transfer parsing, the Raydium check, and
the per-transfer recording loop.  The loop skips the crawled wallet's own
entry and otherwise passes `(transfer.account, wallet.address)` as the
(from, to) pair when the entry's `amount_change` is positive and
`(wallet.address, transfer.account)` when it is negative. -/
def process_transaction (mint : String) (db : DB) (wallet : WalletRow) (tx : TxRec) : DB :=
  let signature := tx.signature
  if db.transactions.any (fun r => r.orig_signature == signature) then db
  else
    let transfers := parse_yaffa_transfers mint tx
    match detect_raydium_interaction wallet transfers tx with
    | some r => record_raydium_trade db wallet r tx
    | none =>
      transfers.foldl
        (fun acc t =>
          if t.account == wallet.address then acc
          else if t.amount_change > 0 then
            record_transfer acc t.account wallet.address (ratAbs t.amount_change) t
              wallet.mother_wallet_id
          else
            record_transfer acc wallet.address t.account (ratAbs t.amount_change) t
              wallet.mother_wallet_id) db

/-! ## Crawl session layer -/

/-- A propagating Python exception, as far as the crawler distinguishes
them. -/
inductive PyErr where
  | attributeError (obj attr : String)
  | other (msg : String)
deriving Repr, DecidableEq

/-- The `str(e)` rendering used when a caught exception is recorded. -/
def pyErrMsg : PyErr → String
  | PyErr.attributeError obj attr => obj ++ " object has no attribute " ++ attr
  | PyErr.other msg => msg

/-- Result of a statement that may raise: the store after the statement
together with the exception propagating out of it, if any. -/
structure PyOutcome where
  db : DB
  err : Option PyErr
deriving Repr, DecidableEq

/-- Body of the `update_crawl_status` function (nested inside the
module-level `calculate_wallet_totals` of `wallet_crawler.py`): upsert
one `crawl_status` row.  The body itself is sound; the defect is only
that it is not reachable as `self.update_crawl_status`. -/
def update_crawl_status (db : DB) (wallet_address status : String)
    (error_msg : Option String) : DB :=
  match db.crawl_status.find? (fun r => r.wallet_address == wallet_address) with
  | none =>
    { db with crawl_status := db.crawl_status ++
        [{ wallet_address := wallet_address, status := status, error_message := error_msg }] }
  | some _ =>
    { db with crawl_status := db.crawl_status.map fun r =>
        if r.wallet_address == wallet_address then
          { r with status := status,
                   error_message := match error_msg with
                     | some m => some m
                     | none => r.error_message }
        else r }

/-- Evaluation of the expression `self.update_crawl_status(...)` on a
`WalletCrawler` instance: the attribute lookup itself raises
`AttributeError` because `update_crawl_status` is not an attribute of the
class, so the call never reaches the function body. -/
def selfUpdateCrawlStatus (db : DB) (wallet_address status : String)
    (error_msg : Option String) : PyOutcome :=
  if walletCrawlerHasAttr "update_crawl_status" then
    { db := update_crawl_status db wallet_address status error_msg, err := none }
  else
    { db := db, err := some (PyErr.attributeError "WalletCrawler" "update_crawl_status") }

/-- Embeds `WalletCrawler.crawl_wallet_tree`.  The depth guard returns
silently when `generation > self.max_depth`.  Inside the `try` block the
first statement is `self.update_crawl_status(wallet_address, "crawling")`;
steps 3 to 8 of the block (wallet creation, balance refresh, transaction
ingestion, recursion into recipients, totals, and the final `completed`
status update) are abstracted as the parameter `rest`, and every theorem
about this function quantifies over all behaviors of `rest`, because the
first statement already raises before `rest` can run.  The `except`
handler evaluates `self.update_crawl_status(wallet_address, "error", str(e))`,
which raises again. -/
def crawl_wallet_tree (rest : DB → PyOutcome) (db : DB) (wallet_address : String)
    (is_mother_wallet : Bool) (parent_wallet_id mother_wallet_id : Option Nat)
    (generation : Int) : PyOutcome :=
  if generation > (max_depth : Int) then { db := db, err := none }
  else
    match selfUpdateCrawlStatus db wallet_address "crawling" none with
    | { db := db1, err := none } =>
      match rest db1 with
      | { db := db2, err := none } => { db := db2, err := none }
      | { db := db2, err := some e } =>
        selfUpdateCrawlStatus db2 wallet_address "error" (some (pyErrMsg e))
    | { db := db1, err := some e } =>
      selfUpdateCrawlStatus db1 wallet_address "error" (some (pyErrMsg e))

/-- Embeds `WalletCrawler.crawl_all_mother_wallets`: each seed address is
crawled with `is_mother_wallet=True` at generation 0; an exception from
one seed is caught by the `except` handler, which itself evaluates
`self.update_crawl_status(address, "error", str(e))` — and an exception
raised there propagates out of the loop, ending the session. -/
def crawl_all_mother_wallets (rest : DB → PyOutcome) : DB → List String → PyOutcome
  | db, [] => { db := db, err := none }
  | db, address :: remaining =>
    match crawl_wallet_tree rest db address true none none 0 with
    | { db := db1, err := none } => crawl_all_mother_wallets rest db1 remaining
    | { db := db1, err := some e } =>
      match selfUpdateCrawlStatus db1 address "error" (some (pyErrMsg e)) with
      | { db := db2, err := none } => crawl_all_mother_wallets rest db2 remaining
      | { db := db2, err := some e2 } => { db := db2, err := some e2 }

/-! ## Aggregate recomputation (module-level `calculate_lineage_totals`
of `wallet_crawler.py`, lines 508-589) -/

/-- Running totals of the trade loop of `calculate_lineage_totals`:
`(total_sold, total_bought, total_sol_received, total_sol_spent)`. -/
structure TradeTotals where
  sold : ℚ
  bought : ℚ
  sol_received : ℚ
  sol_spent : ℚ
deriving Repr, DecidableEq

/-- One iteration of the trade loop: `trade.get('trade_type', 'sell')`
defaults a missing type to `'sell'`; the legacy branch
(`if not trade_type and ...`) only fires for a present-but-empty type
string, matching Python falsiness. -/
def tradeStep (acc : TradeTotals) (trade : TradeRow) : TradeTotals :=
  let trade_type := trade.trade_type.getD "sell"
  let acc1 :=
    if trade_type == "sell" then
      { acc with sold := acc.sold + trade.yaffa_amount_sold.getD 0,
                 sol_received := acc.sol_received + trade.sol_amount_received.getD 0 }
    else if trade_type == "buy" then
      { acc with bought := acc.bought + trade.yaffa_amount_bought.getD 0,
                 sol_spent := acc.sol_spent + trade.sol_amount_spent.getD 0 }
    else acc
  if trade_type = "" ∧ trade.yaffa_amount_sold.getD 0 > 0 then
    { acc1 with sold := acc1.sold + trade.yaffa_amount_sold.getD 0,
                sol_received := acc1.sol_received + trade.sol_amount_received.getD 0 }
  else acc1

/-- Embeds the module-level `calculate_lineage_totals` of
`wallet_crawler.py` (written at column 0 after the `WalletCrawler` class
body): full recomputation of a wallet's aggregate columns from the
persisted transactions, trades and lineage edges.  The trailing
per-mother loop of the source (`calculate_lineage_totals_for_mother`)
only reads and prints, so it contributes no store change here. -/
def calculate_lineage_totals (db : DB) (wallet : WalletRow) : DB :=
  let wallet_id := wallet.id
  let lineage_mothers :=
    (db.wallet_lineages.filter (fun l => l.wallet_id == wallet_id)).map LineageRow.mother_wallet_id
  let all_mothers : List Nat :=
    ([wallet.mother_wallet_id] ++ lineage_mothers.map some).filterMap
      (fun o => match o with
        | some m => if m != 0 then some m else none
        | none => none)
  let total_sent :=
    ((db.transactions.filter (fun t =>
        t.from_wallet_id == wallet_id && t.transaction_type == "transfer")).map
      TransactionRow.yaffa_amount).sum
  let received_rows := db.transactions.filter (fun t =>
    t.to_wallet_id == wallet_id && t.transaction_type == "transfer")
  let total_received := (received_rows.map TransactionRow.yaffa_amount).sum
  let lineage_received :=
    ((received_rows.filter TransactionRow.is_lineage_transfer).map
      TransactionRow.yaffa_amount).sum
  let totals := (db.trades.filter (fun t => t.wallet_id == wallet_id)).foldl tradeStep
    { sold := 0, bought := 0, sol_received := 0, sol_spent := 0 }
  let net_yaffa_balance := total_received + totals.bought - total_sent - totals.sold
  let net_sol_balance := totals.sol_received - totals.sol_spent
  let lineage_yaffa_balance := lineage_received - total_sent - totals.sold
  { db with wallets := db.wallets.map fun w =>
      if w.id == wallet_id then
        { w with total_yaffa_received := total_received,
                 total_yaffa_sent := total_sent,
                 total_yaffa_sold := totals.sold,
                 total_yaffa_bought := totals.bought,
                 total_sol_received := totals.sol_received,
                 total_sol_spent := totals.sol_spent,
                 net_yaffa_balance := net_yaffa_balance,
                 net_sol_balance := net_sol_balance,
                 lineage_yaffa_received := lineage_received,
                 lineage_yaffa_balance := lineage_yaffa_balance,
                 lineage_count := all_mothers.dedup.length }
      else w }

/-! ## Spec-side definitions, used only to compare the code against the
specification's own wording -/

/-- Follows the spec's words (section 4.2 `classifyForWallet`): a
transaction is a DEX trade for a wallet only when some instruction's
program identifier matches the known DEX allowlist, and then it is a
`sell` when the wallet's token delta is negative and its native delta
positive, a `buy` in the opposite sign pattern.  This definition is the
comparison point for the classifier actually implemented by
`detect_raydium_interaction`. -/
def specClassifyForWallet (tx : TxRec) (wallet_address : String)
    (transfers : List TransferRec) : Option String :=
  if tx.programIds.any (fun p => raydium_programs.contains p) then
    let token_delta := walletYaffaChange wallet_address transfers
    let native_delta := get_sol_balance_change wallet_address tx
    if token_delta < 0 ∧ native_delta > 0 then some "sell"
    else if token_delta > 0 ∧ native_delta < 0 then some "buy"
    else none
  else none

/-- Whether the sender wallet recorded for a transaction has a non-null
mother attribution in the persisted wallet set. -/
def senderHasMotherAttribution (db : DB) (t : TransactionRow) : Bool :=
  match db.wallets.find? (fun w => w.id == t.from_wallet_id) with
  | some w => w.mother_wallet_id.isSome
  | none => false

/-- Follows the spec's words (section 4.4): sum of the amounts of all
inbound transfer transactions of a wallet. -/
def specTotalReceived (db : DB) (wallet_id : Nat) : ℚ :=
  ((db.transactions.filter (fun t =>
      t.to_wallet_id == wallet_id && t.transaction_type == "transfer")).map
    TransactionRow.yaffa_amount).sum

/-- Follows the spec's words (section 4.4): sum of the amounts of all
outbound transfer transactions of a wallet. -/
def specTotalSent (db : DB) (wallet_id : Nat) : ℚ :=
  ((db.transactions.filter (fun t =>
      t.from_wallet_id == wallet_id && t.transaction_type == "transfer")).map
    TransactionRow.yaffa_amount).sum

/-- Follows the spec's words (section 4.4): sum of the amounts of inbound
transfer transactions whose sender itself has a non-null mother
attribution. -/
def specLineageReceived (db : DB) (wallet_id : Nat) : ℚ :=
  ((db.transactions.filter (fun t =>
      (t.to_wallet_id == wallet_id && t.transaction_type == "transfer") &&
      senderHasMotherAttribution db t)).map TransactionRow.yaffa_amount).sum

/-- Follows the spec's words (section 4.4): token amount summed over this
wallet's trades of type `sell`. -/
def specTotalSold (db : DB) (wallet_id : Nat) : ℚ :=
  ((db.trades.filter (fun t =>
      (t.trade_type == some "sell") && (t.wallet_id == wallet_id))).map
    (fun t => t.yaffa_amount_sold.getD 0)).sum

/-- Follows the spec's words (section 4.4): native amount summed over this
wallet's trades of type `sell`. -/
def specTotalSolReceived (db : DB) (wallet_id : Nat) : ℚ :=
  ((db.trades.filter (fun t =>
      (t.trade_type == some "sell") && (t.wallet_id == wallet_id))).map
    (fun t => t.sol_amount_received.getD 0)).sum

/-- Follows the spec's words (section 4.4): token amount summed over this
wallet's trades of type `buy`. -/
def specTotalBought (db : DB) (wallet_id : Nat) : ℚ :=
  ((db.trades.filter (fun t =>
      (t.trade_type == some "buy") && (t.wallet_id == wallet_id))).map
    (fun t => t.yaffa_amount_bought.getD 0)).sum

/-- Follows the spec's words (section 4.4): native amount summed over this
wallet's trades of type `buy`. -/
def specTotalSolSpent (db : DB) (wallet_id : Nat) : ℚ :=
  ((db.trades.filter (fun t =>
      (t.trade_type == some "buy") && (t.wallet_id == wallet_id))).map
    (fun t => t.sol_amount_spent.getD 0)).sum

/-! ## Concrete scenario inputs and conclusion predicates -/

/-- Wallet A of the direct-transfer scenario: a crawled lineage wallet at
generation 0. -/
def scenarioA_wallet : WalletRow :=
  { id := 1, address := "A", mother_wallet_id := some 1, parent_wallet_id := none,
    generation := 0, is_external := false, discovered_by_mother := some 1 }

/-- Store state before processing the direct-transfer scenario: only
wallet A exists. -/
def scenarioA_db : DB := { emptyDB with wallets := [scenarioA_wallet], next_wallet_id := 2 }

/-- The scenario transaction: A's token balance drops from 100 to 50 and
the previously unknown account B rises from nothing to 50; no DEX program
appears among the instructions. -/
def scenarioA_tx : TxRec :=
  { signature := "SIGAB", failed := false,
    preTokenBalances := [{ mint := "MINT", accountIndex := 0, uiAmount := some 100 }],
    postTokenBalances := [{ mint := "MINT", accountIndex := 0, uiAmount := some 50 },
                          { mint := "MINT", accountIndex := 1, uiAmount := some 50 }],
    accountKeys := ["A", "B"], preBalances := [0, 0], postBalances := [0, 0],
    programIds := [], blockTime := 0, slot := 0 }

/-- Wallet W of the DEX-trade scenario. -/
def scenarioW_wallet : WalletRow :=
  { id := 7, address := "W", mother_wallet_id := some 3, parent_wallet_id := none,
    generation := 1, is_external := false, discovered_by_mother := some 3 }

/-- W's parsed token movement in the trade scenario: 100 tokens out. -/
def scenarioW_transfers : List TransferRec :=
  [{ account := "W", amount_change := -100, signature := "SIGW", timestamp := 0,
     block_height := 0 }]

/-- The scenario transaction: an instruction of the Raydium AMM program,
W's token delta is -100 and W's native balance rises by 2.5 SOL
(1000000000 to 3500000000 lamports). -/
def scenarioW_tx : TxRec :=
  { signature := "SIGW", failed := false, preTokenBalances := [],
    postTokenBalances := [], accountKeys := ["W", "POOL"],
    preBalances := [1000000000, 0], postBalances := [3500000000, 0],
    programIds := ["675kPX9MHTjS2zt1qfr1NYHuzeLXfQM9H24wFSUt1Mp8"],
    blockTime := 0, slot := 0 }

/-- Conclusion of the deduplication claim: both insert operations preserve
at-most-one-row-per-key, and re-processing an already-present signature
(or an already-present (signature, wallet) trade pair) leaves the store
unchanged rather than failing. -/
def dedupConclusion (db : DB) (from_address to_address : String) (amount : ℚ)
    (transfer_data : TransferRec) (dmid : Option Nat) (wallet : WalletRow)
    (r : RaydiumInteraction) (tx : TxRec) (mint : String) : Prop :=
  ((record_transfer db from_address to_address amount transfer_data dmid).transactions.Pairwise
    (fun a b => a.orig_signature ≠ b.orig_signature)) ∧
  ((record_raydium_trade db wallet r tx).trades.Pairwise
    (fun a b => ¬(a.transaction_hash = b.transaction_hash ∧ a.wallet_id = b.wallet_id))) ∧
  ((db.transactions.any fun t => t.orig_signature == transfer_data.signature) = true →
    record_transfer db from_address to_address amount transfer_data dmid = db) ∧
  ((db.trades.filter fun t =>
      t.transaction_hash == tx.signature && t.wallet_id == wallet.id).isEmpty = false →
    record_raydium_trade db wallet r tx = db) ∧
  ((db.transactions.any fun t => t.orig_signature == tx.signature) = true →
    process_transaction mint db wallet tx = db)

/-- A transactions row already persisted under the ledger signature S0,
used to exercise the no-op branches. -/
def dedupW_row : TransactionRow :=
  { transaction_hash := "S0_A_B", from_wallet_id := 1, to_wallet_id := 2,
    yaffa_amount := 5, timestamp := 0, block_height := 0,
    transaction_type := "transfer", is_lineage_transfer := false,
    discovering_mother_id := none, orig_signature := "S0",
    from_address := "A", to_address := "B" }

/-- A trades row already persisted for (signature S0, wallet 7). -/
def dedupW_trade : TradeRow :=
  { wallet_id := 7, transaction_hash := "S0", trade_type := some "sell",
    yaffa_amount := 5, sol_amount := 1, price_per_token := 1 / 5,
    yaffa_amount_sold := some 5, sol_amount_received := some 1 }

/-- Store already holding the S0 transfer and the (S0, wallet 7) trade. -/
def dedupW_db : DB :=
  { emptyDB with
    wallets := [scenarioW_wallet], transactions := [dedupW_row],
    trades := [dedupW_trade] }

/-- A re-fetched transfer record carrying the already-seen signature S0. -/
def dedupW_transfer : TransferRec :=
  { account := "A", amount_change := -5, signature := "S0", timestamp := 0,
    block_height := 0 }

/-- A re-detected trade for the already-seen signature S0. -/
def dedupW_interaction : RaydiumInteraction :=
  { rtype := "sell", yaffa_amount := 5, sol_amount := 1, price_per_token := 1 / 5 }

/-- A raw transaction re-fetched under the already-seen signature S0. -/
def dedupW_tx : TxRec :=
  { signature := "S0", failed := false, preTokenBalances := [],
    postTokenBalances := [], accountKeys := [], preBalances := [],
    postBalances := [], programIds := [], blockTime := 0, slot := 0 }

/-- Conclusion of the multi-lineage claim for one call of
`handle_multi_lineage_membership`: the per-pair uniqueness of
`wallet_lineages` is preserved, no lineage row duplicates a wallet's
primary mother, and a new edge appears only under the source's guard
conditions (truthy discovering mother, truthy and different current
primary mother, lineage-attributed sender, pair not already present). -/
def multiLineageConclusion (db : DB) (toD fromD : WalletRow) (dmid : Option Nat) : Prop :=
  ((handle_multi_lineage_membership db toD fromD dmid).wallet_lineages.Pairwise
    (fun a b => ¬(a.wallet_id = b.wallet_id ∧ a.mother_wallet_id = b.mother_wallet_id))) ∧
  (∀ l ∈ (handle_multi_lineage_membership db toD fromD dmid).wallet_lineages,
    ∀ w ∈ (handle_multi_lineage_membership db toD fromD dmid).wallets,
      w.id = l.wallet_id → w.mother_wallet_id ≠ some l.mother_wallet_id) ∧
  ((handle_multi_lineage_membership db toD fromD dmid).wallet_lineages ≠ db.wallet_lineages →
    optTruthy dmid = true ∧ optTruthy toD.mother_wallet_id = true ∧
    toD.mother_wallet_id ≠ dmid ∧ optTruthy fromD.mother_wallet_id = true ∧
    (db.wallet_lineages.filter fun l =>
      l.wallet_id == toD.id && some l.mother_wallet_id == dmid).isEmpty = true ∧
    (handle_multi_lineage_membership db toD fromD dmid).wallet_lineages =
      db.wallet_lineages ++
        [{ wallet_id := toD.id, mother_wallet_id := dmid.getD 0,
           connection_type := "transfer" }])

/-- Recipient wallet of the multi-lineage witness scenario, primarily
owned by mother 1. -/
def multiW_recipient : WalletRow :=
  { id := 5, address := "R", mother_wallet_id := some 1, parent_wallet_id := none,
    generation := 2, is_external := false, discovered_by_mother := some 1 }

/-- Sender wallet of the multi-lineage witness scenario, attributed to
mother 2. -/
def multiW_sender : WalletRow :=
  { id := 6, address := "S", mother_wallet_id := some 2, parent_wallet_id := none,
    generation := 1, is_external := false, discovered_by_mother := some 2 }

/-- Store for the multi-lineage witness: both wallets exist, no lineage
edges yet. -/
def multiW_db : DB := { emptyDB with wallets := [multiW_recipient, multiW_sender] }

/-- Conclusion of the aggregate-recomputation claim: every wallet row the
recomputation rewrites carries the totals demanded by the spec, computed
from the persisted fact set, and the three derived balances satisfy their
defining equations. -/
def aggregateConclusion (db : DB) (wallet : WalletRow) : Prop :=
  ∀ w ∈ (calculate_lineage_totals db wallet).wallets, w.id = wallet.id →
    w.lineage_yaffa_received = specLineageReceived db wallet.id ∧
    w.total_yaffa_received = specTotalReceived db wallet.id ∧
    w.total_yaffa_sent = specTotalSent db wallet.id ∧
    w.total_yaffa_sold = specTotalSold db wallet.id ∧
    w.total_yaffa_bought = specTotalBought db wallet.id ∧
    w.total_sol_received = specTotalSolReceived db wallet.id ∧
    w.total_sol_spent = specTotalSolSpent db wallet.id ∧
    w.net_yaffa_balance =
      w.total_yaffa_received + w.total_yaffa_bought - w.total_yaffa_sent - w.total_yaffa_sold ∧
    w.net_sol_balance = w.total_sol_received - w.total_sol_spent ∧
    w.lineage_yaffa_balance =
      w.lineage_yaffa_received - w.total_yaffa_sent - w.total_yaffa_sold

/-- The wallet whose aggregates the witness recomputes. -/
def aggW_wallet : WalletRow :=
  { id := 1, address := "A", mother_wallet_id := some 1, parent_wallet_id := none,
    generation := 0, is_external := false, discovered_by_mother := some 1 }

/-- A lineage sender wallet for the aggregate witness. -/
def aggW_sender : WalletRow :=
  { id := 2, address := "B", mother_wallet_id := some 1, parent_wallet_id := some 1,
    generation := 1, is_external := false, discovered_by_mother := some 1 }

/-- Store for the aggregate witness: one inbound lineage transfer of 40,
one outbound transfer of 10, one sell of 5 for 2 SOL and one buy of 3 for
1 SOL. -/
def aggW_db : DB :=
  { emptyDB with
    wallets := [aggW_wallet, aggW_sender],
    transactions :=
      [{ transaction_hash := "T1_B_A", from_wallet_id := 2, to_wallet_id := 1,
         yaffa_amount := 40, timestamp := 0, block_height := 0,
         transaction_type := "transfer", is_lineage_transfer := true,
         discovering_mother_id := some 1, orig_signature := "T1",
         from_address := "B", to_address := "A" },
       { transaction_hash := "T2_A_B", from_wallet_id := 1, to_wallet_id := 2,
         yaffa_amount := 10, timestamp := 0, block_height := 0,
         transaction_type := "transfer", is_lineage_transfer := true,
         discovering_mother_id := some 1, orig_signature := "T2",
         from_address := "A", to_address := "B" }],
    trades :=
      [{ wallet_id := 1, transaction_hash := "T3", trade_type := some "sell",
         yaffa_amount := 5, sol_amount := 2, price_per_token := 2 / 5,
         yaffa_amount_sold := some 5, sol_amount_received := some 2 },
       { wallet_id := 1, transaction_hash := "T4", trade_type := some "buy",
         yaffa_amount := 3, sol_amount := 1, price_per_token := 1 / 3,
         yaffa_amount_bought := some 3, sol_amount_spent := some 1 }],
    next_wallet_id := 3 }

/-! ## Helper lemmas shared by the claim theorems -/

theorem detect_none (wallet : WalletRow) (transfers : List TransferRec) (tx : TxRec) :
    detect_raydium_interaction wallet transfers tx = none := by
  have h : solanaClientHasAttr "get_sol_balance_change" = false := by decide
  simp [detect_raydium_interaction, h]

theorem get_or_create_trades (db : DB) (address : String) (dmid : Option Nat)
    (is_sender : Bool) (sender_data : Option WalletRow) :
    (get_or_create_wallet_for_transfer db address dmid is_sender sender_data).2.2.trades
      = db.trades := by
  unfold get_or_create_wallet_for_transfer
  split <;> rfl

theorem handle_multi_trades (db : DB) (toD fromD : WalletRow) (dmid : Option Nat) :
    (handle_multi_lineage_membership db toD fromD dmid).trades = db.trades := by
  unfold handle_multi_lineage_membership
  dsimp only
  split_ifs <;> rfl

theorem record_transfer_trades (db : DB) (from_address to_address : String) (amount : ℚ)
    (transfer_data : TransferRec) (dmid : Option Nat) :
    (record_transfer db from_address to_address amount transfer_data dmid).trades
      = db.trades := by
  unfold record_transfer
  dsimp only
  split_ifs with h
  · rfl
  · simp [get_or_create_trades, handle_multi_trades]

theorem process_loop_trades (wallet : WalletRow) (l : List TransferRec) (db : DB) :
    (l.foldl (fun acc t =>
        if t.account == wallet.address then acc
        else if t.amount_change > 0 then
          record_transfer acc t.account wallet.address (ratAbs t.amount_change) t
            wallet.mother_wallet_id
        else
          record_transfer acc wallet.address t.account (ratAbs t.amount_change) t
            wallet.mother_wallet_id) db).trades = db.trades := by
  induction l generalizing db with
  | nil => rfl
  | cons t tl ih =>
    simp only [List.foldl_cons]
    rw [ih]
    split_ifs <;> simp [record_transfer_trades]

theorem get_or_create_transactions (db : DB) (address : String) (dmid : Option Nat)
    (is_sender : Bool) (sender_data : Option WalletRow) :
    (get_or_create_wallet_for_transfer db address dmid is_sender sender_data).2.2.transactions
      = db.transactions := by
  unfold get_or_create_wallet_for_transfer
  split <;> rfl

theorem handle_multi_transactions (db : DB) (toD fromD : WalletRow) (dmid : Option Nat) :
    (handle_multi_lineage_membership db toD fromD dmid).transactions = db.transactions := by
  unfold handle_multi_lineage_membership
  dsimp only
  split_ifs <;> rfl

theorem optTruthy_some (o : Option Nat) (h : optTruthy o = true) : o = some (o.getD 0) := by
  cases o with
  | none => simp [optTruthy] at h
  | some n => rfl

theorem tradeLoop_spec (l : List TradeRow)
    (h : ∀ tr ∈ l, tr.trade_type = some "sell" ∨ tr.trade_type = some "buy")
    (acc : TradeTotals) :
    l.foldl tradeStep acc =
      { sold := acc.sold + ((l.filter fun t => t.trade_type == some "sell").map
          (fun t => t.yaffa_amount_sold.getD 0)).sum,
        bought := acc.bought + ((l.filter fun t => t.trade_type == some "buy").map
          (fun t => t.yaffa_amount_bought.getD 0)).sum,
        sol_received := acc.sol_received + ((l.filter fun t => t.trade_type == some "sell").map
          (fun t => t.sol_amount_received.getD 0)).sum,
        sol_spent := acc.sol_spent + ((l.filter fun t => t.trade_type == some "buy").map
          (fun t => t.sol_amount_spent.getD 0)).sum } := by
  induction l generalizing acc with
  | nil => simp
  | cons t tl ih =>
    have hmem : ∀ tr ∈ tl, tr.trade_type = some "sell" ∨ tr.trade_type = some "buy" :=
      fun tr htr => h tr (List.mem_cons_of_mem _ htr)
    rcases h t (List.mem_cons_self _ _) with ht | ht
    · have hstep : tradeStep acc t =
          { acc with sold := acc.sold + t.yaffa_amount_sold.getD 0,
                     sol_received := acc.sol_received + t.sol_amount_received.getD 0 } := by
        simp [tradeStep, ht]
      rw [List.foldl_cons, hstep, ih hmem]
      simp [List.filter_cons, ht, TradeTotals.mk.injEq, add_assoc]
    · have hstep : tradeStep acc t =
          { acc with bought := acc.bought + t.yaffa_amount_bought.getD 0,
                     sol_spent := acc.sol_spent + t.sol_amount_spent.getD 0 } := by
        simp [tradeStep, ht]
      rw [List.foldl_cons, hstep, ih hmem]
      simp [List.filter_cons, ht, TradeTotals.mk.injEq, add_assoc]

theorem sumAccounts_malformed_none (l1 l2 : List TokenAccount) :
    sumAccounts (l1 ++ TokenAccount.malformed :: l2) = none := by
  induction l1 with
  | nil => rfl
  | cons a tl ih =>
    cases a <;> simp [sumAccounts, ih, TokenAccount.amount?]

/-! ## Claim theorems -/

/-- C10: every ledger feed adapter operation is fail-safe.  A transport
failure, a protocol-level error field, a missing result, or a malformed
token account all yield 0 from `get_token_account_balance` (as does an
empty token-account list), an empty list from `get_token_transactions`,
and `None` from `get_transaction_detail`; no exception leaves the adapter
layer. -/
theorem feed_adapter_fail_safe :
    (∀ e : String, get_token_account_balance (Except.error e) = 0) ∧
    (∀ (msg : String) (r : Option (List TokenAccount)),
      get_token_account_balance (Except.ok { error := some msg, result := r }) = 0) ∧
    (get_token_account_balance (Except.ok { error := none, result := none }) = 0) ∧
    (get_token_account_balance (Except.ok { error := none, result := some [] }) = 0) ∧
    (∀ l1 l2 : List TokenAccount,
      get_token_account_balance (Except.ok
        { error := none, result := some (l1 ++ TokenAccount.malformed :: l2) }) = 0) ∧
    (∀ (e : String) (detail : String → Option TxRec),
      get_token_transactions (Except.error e) detail = []) ∧
    (∀ (msg : String) (r : Option (List SigInfo)) (detail : String → Option TxRec),
      get_token_transactions (Except.ok { error := some msg, result := r }) detail = []) ∧
    (∀ detail : String → Option TxRec,
      get_token_transactions (Except.ok { error := none, result := none }) detail = []) ∧
    (∀ e : String, get_transaction_detail (Except.error e) = none) ∧
    (∀ (msg : String) (r : Option TxRec),
      get_transaction_detail (Except.ok { error := some msg, result := r }) = none) := by
  refine ⟨fun e => rfl, fun msg r => rfl, rfl, rfl, ?_, fun e d => rfl, fun msg r d => rfl,
    fun d => rfl, fun e => rfl, fun msg r => rfl⟩
  intro l1 l2
  have hm := sumAccounts_malformed_none l1 l2
  simp [get_token_account_balance, make_rpc_call, hm]

/-- C3 (code bug evaluation): processing the transaction in which the
crawled wallet A sends 50 tokens to the previously unknown wallet B (no
DEX program involved) creates exactly one transactions row — but with
`from = B, to = A`, the reverse of the actual movement — and creates B as
an external sender wallet at generation 999 with no mother, not at
`generation = A.generation + 1`. -/
theorem transfer_direction_eval :
    ((process_transaction "MINT" scenarioA_db scenarioA_wallet scenarioA_tx).transactions.map
      (fun r => (r.from_address, r.to_address, r.yaffa_amount, r.transaction_type)) =
      [("B", "A", 50, "transfer")]) ∧
    ((process_transaction "MINT" scenarioA_db scenarioA_wallet scenarioA_tx).wallets.map
      (fun w => (w.address, w.generation, w.is_external, w.mother_wallet_id)) =
      [("A", 0, false, some 1), ("B", 999, true, none)]) := by
  constructor <;> decide

/-- C6: the store-level deduplication contract.  Under the invariant that
at most one transactions row exists per original ledger signature
(stronger than per sender-recipient pair, so the claim's per-pair bound
follows) and at most one trades row per (signature, wallet) pair, the two
insert operations preserve both bounds, and re-processing an already-seen
signature — in `record_transfer`, `record_raydium_trade`, or
`process_transaction` — returns the store unchanged instead of raising. -/
theorem dedup_invariant_preserved (db : DB) (from_address to_address : String)
    (amount : ℚ) (transfer_data : TransferRec) (dmid : Option Nat) (wallet : WalletRow)
    (r : RaydiumInteraction) (tx : TxRec) (mint : String)
    (hT : db.transactions.Pairwise (fun a b => a.orig_signature ≠ b.orig_signature))
    (hR : db.trades.Pairwise (fun a b =>
      ¬(a.transaction_hash = b.transaction_hash ∧ a.wallet_id = b.wallet_id))) :
    dedupConclusion db from_address to_address amount transfer_data dmid wallet r tx mint := by
  unfold dedupConclusion
  refine ⟨?_, ?_, ?_, ?_, ?_⟩
  · unfold record_transfer
    dsimp only
    split_ifs with h
    · exact hT
    · have h2 : db.transactions.any
          (fun t => t.orig_signature == transfer_data.signature) = false := by
        simpa using h
      simp only [get_or_create_transactions, handle_multi_transactions]
      rw [List.pairwise_append]
      refine ⟨hT, by simp, ?_⟩
      intro a ha b hb
      rw [List.mem_singleton] at hb
      subst hb
      intro hcontra
      have h3 := List.any_eq_false.mp h2 a ha
      exact h3 (by simpa using hcontra)
  · unfold record_raydium_trade
    dsimp only
    split_ifs with h hs
    · exact hR
    all_goals
      have h2 : (db.trades.filter fun t =>
          t.transaction_hash == tx.signature && t.wallet_id == wallet.id) = [] := by
        rw [← List.isEmpty_iff]
        simpa using h
    all_goals
      have h3 := List.filter_eq_nil_iff.mp h2
      rw [List.pairwise_append]
      refine ⟨hR, by simp, ?_⟩
      intro a ha b hb
      rw [List.mem_singleton] at hb
      subst hb
      rintro ⟨hh, hw⟩
      apply h3 a ha
      rw [Bool.and_eq_true, beq_iff_eq, beq_iff_eq]
      exact ⟨hh, hw⟩
  · intro h
    unfold record_transfer
    dsimp only
    rw [if_pos h]
  · intro h
    unfold record_raydium_trade
    dsimp only
    rw [if_pos h]
  · intro h
    unfold process_transaction
    dsimp only
    rw [if_pos h]

/-- C6 witness: the deduplication conclusion applied to a store already
holding one transfer recorded under signature S0 and one (S0, wallet 7)
trade; the top-level invariants are discharged by evaluation, and the
no-op branches of the conclusion are exercised at an input that re-offers
signature S0. -/
theorem dedup_invariant_preserved_witness :
    dedupConclusion dedupW_db "A" "B" 5 dedupW_transfer none scenarioW_wallet
      dedupW_interaction dedupW_tx "MINT" :=
  dedup_invariant_preserved dedupW_db "A" "B" 5 dedupW_transfer none scenarioW_wallet
    dedupW_interaction dedupW_tx "MINT" (by decide) (by decide)

/-- C8: multi-lineage membership invariants.  Assuming the store satisfies
per-pair uniqueness of `wallet_lineages`, no existing lineage row
duplicates a wallet's primary mother, and the recipient record passed in
agrees with the stored wallet row on its primary mother, one call of
`handle_multi_lineage_membership` preserves both invariants and inserts
an edge only when the discovering mother is a truthy id, the recipient
already has a truthy primary mother different from it, the sender carries
lineage information, and the (wallet, mother) pair is not yet present. -/
theorem multi_lineage_invariants (db : DB) (toD fromD : WalletRow) (dmid : Option Nat)
    (hPW : db.wallet_lineages.Pairwise (fun a b =>
      ¬(a.wallet_id = b.wallet_id ∧ a.mother_wallet_id = b.mother_wallet_id)))
    (hPrim : ∀ l ∈ db.wallet_lineages, ∀ w ∈ db.wallets,
      w.id = l.wallet_id → w.mother_wallet_id ≠ some l.mother_wallet_id)
    (hCoh : ∀ w ∈ db.wallets, w.id = toD.id → w.mother_wallet_id = toD.mother_wallet_id) :
    multiLineageConclusion db toD fromD dmid := by
  unfold multiLineageConclusion handle_multi_lineage_membership
  dsimp only
  split_ifs with h1 h2 h3
  pick_goal 2
  · -- insertion branch
    have h1a : optTruthy dmid = true ∧ optTruthy toD.mother_wallet_id = true := by
      simp only [not_or, Bool.not_eq_false] at h1
      exact h1
    have hsome : dmid = some (dmid.getD 0) := optTruthy_some dmid h1a.1
    have hfilter : (db.wallet_lineages.filter fun l =>
        l.wallet_id == toD.id && some l.mother_wallet_id == dmid) = [] := by
      rw [← List.isEmpty_iff]
      exact h3
    have hmem := List.filter_eq_nil_iff.mp hfilter
    refine ⟨?_, ?_, ?_⟩
    · rw [List.pairwise_append]
      refine ⟨hPW, by simp, ?_⟩
      intro a ha b hb
      rw [List.mem_singleton] at hb
      subst hb
      rintro ⟨hwid, hmid⟩
      apply hmem a ha
      rw [Bool.and_eq_true, beq_iff_eq, beq_iff_eq]
      refine ⟨by simpa using hwid, ?_⟩
      rw [show a.mother_wallet_id = dmid.getD 0 from by simpa using hmid]
      exact hsome.symm
    · intro l hl w hw hid
      rw [List.mem_append] at hl
      rcases hl with hl | hl
      · exact hPrim l hl w hw hid
      · rw [List.mem_singleton] at hl
        subst hl
        have hmw := hCoh w hw (by simpa using hid)
        rw [hmw]
        intro hbad
        apply h2.1
        rw [hsome]
        simpa using hbad
    · intro _
      exact ⟨h1a.1, h1a.2, h2.1, h2.2, h3, rfl⟩
  all_goals
    refine ⟨hPW, fun l hl w hw hid => hPrim l hl w hw hid, fun hne => absurd rfl hne⟩

/-- C8 witness: the multi-lineage conclusion at a store where the
recipient is primarily owned by mother 1 and is now reached through a
sender attributed to mother 2, so the insertion branch fires. -/
theorem multi_lineage_invariants_witness :
    multiLineageConclusion multiW_db multiW_recipient multiW_sender (some 2) :=
  multi_lineage_invariants multiW_db multiW_recipient multiW_sender (some 2)
    (by decide) (by decide) (by decide)

/-- C9: after aggregate recomputation by the module-level
`calculate_lineage_totals`, the rewritten wallet row has
`lineage_yaffa_received` equal to the sum of inbound transfer amounts
whose sender carries a non-null mother attribution (using the persisted
`is_lineage_transfer` flags, assumed coherent with the persisted sender
rows, exactly as `record_transfer` writes them), the four totals equal to
the spec-side sums over the persisted fact set, and
`net_yaffa_balance = received + bought - sent - sold`,
`net_sol_balance = sol_received - sol_spent`, and
`lineage_yaffa_balance = lineage_received - sent - sold`. -/
theorem aggregate_recomputation (db : DB) (wallet : WalletRow)
    (hflags : ∀ t ∈ db.transactions, t.is_lineage_transfer = senderHasMotherAttribution db t)
    (htypes : ∀ tr ∈ db.trades, tr.wallet_id = wallet.id →
      tr.trade_type = some "sell" ∨ tr.trade_type = some "buy") :
    aggregateConclusion db wallet := by
  have hTT := tradeLoop_spec (db.trades.filter fun t => t.wallet_id == wallet.id)
    (by
      intro tr htr
      rw [List.mem_filter] at htr
      exact htypes tr htr.1 (by simpa using htr.2))
    { sold := 0, bought := 0, sol_received := 0, sol_spent := 0 }
  intro w hw hid
  unfold calculate_lineage_totals at hw
  dsimp only at hw
  rw [List.mem_map] at hw
  obtain ⟨w0, hw0, hmap⟩ := hw
  have hcongr : ∀ t ∈ db.transactions,
      (t.is_lineage_transfer &&
        (t.to_wallet_id == wallet.id && t.transaction_type == "transfer")) =
      ((t.to_wallet_id == wallet.id && t.transaction_type == "transfer") &&
        senderHasMotherAttribution db t) := by
    intro t ht
    rw [hflags t ht, Bool.and_comm]
  by_cases hidw : (w0.id == wallet.id) = true
  · rw [if_pos hidw] at hmap
    subst hmap
    dsimp only
    rw [hTT]
    dsimp only
    refine ⟨?_, rfl, rfl, ?_, ?_, ?_, ?_, rfl, rfl, rfl⟩
    · unfold specLineageReceived
      rw [List.filter_filter, List.filter_congr hcongr]
    · unfold specTotalSold
      rw [zero_add, List.filter_filter]
    · unfold specTotalBought
      rw [zero_add, List.filter_filter]
    · unfold specTotalSolReceived
      rw [zero_add, List.filter_filter]
    · unfold specTotalSolSpent
      rw [zero_add, List.filter_filter]
  · rw [if_neg hidw] at hmap
    subst hmap
    exact absurd (by simpa using hid) (by simpa using hidw)

/-- C9 witness: the aggregate conclusion at a store with one inbound
lineage transfer of 40, one outbound transfer of 10, one sell of 5 for 2
SOL and one buy of 3 for 1 SOL, whose lineage flags match the persisted
sender rows. -/
theorem aggregate_recomputation_witness : aggregateConclusion aggW_db aggW_wallet :=
  aggregate_recomputation aggW_db aggW_wallet (by decide) (by decide)

/-- C4 (code bug evaluation): on a transaction carrying a Raydium AMM
instruction where wallet W's token delta is -100 and W's native delta is
+2.5 SOL, the spec-side classifier built from section 4.2 yields `sell`,
but the implemented classifier `detect_raydium_interaction` yields `None`
— its native-balance call raises `AttributeError` (converted to `None` by
its handler), and the `raydium_programs` allowlist it defines is never
compared against any instruction. -/
theorem dex_classification_eval :
    detect_raydium_interaction scenarioW_wallet scenarioW_transfers scenarioW_tx = none ∧
    specClassifyForWallet scenarioW_tx "W" scenarioW_transfers = some "sell" := by
  refine ⟨detect_none _ _ _, ?_⟩
  rfl

/-- C1: for every non-empty list of seed addresses (and whatever steps 3-8
of the tree crawl would do, abstracted as `rest`),
`crawl_all_mother_wallets` propagates `AttributeError` while handling the
first address — the status update raises, the branch handler raises
again, and the session handler raises a third time — and the store is
left exactly as it was: no wallet, transaction, trade, lineage, or crawl
status row is created. -/
theorem crawl_all_mother_wallets_first_address_attribute_error
    (rest : DB → PyOutcome) (db : DB) (address : String) (remaining : List String) :
    crawl_all_mother_wallets rest db (address :: remaining) =
      { db := db,
        err := some (PyErr.attributeError "WalletCrawler" "update_crawl_status") } :=
  rfl

/-- C2 (code bug evaluation): on the session with two seed addresses and
an empty store, the failure of the first seed is NOT recorded as an
`error` row in `crawl_status` and the second seed is never attempted —
the error handler itself raises `AttributeError` and the session aborts
with the store untouched, contradicting the spec's error-handling
contract.  `rest` is instantiated with a remainder that always succeeds,
showing the abort is caused by the status calls alone. -/
theorem crawl_session_abort_eval :
    crawl_all_mother_wallets (fun db => { db := db, err := none }) emptyDB ["M1", "M2"] =
      { db := emptyDB,
        err := some (PyErr.attributeError "WalletCrawler" "update_crawl_status") } ∧
    (crawl_all_mother_wallets (fun db => { db := db, err := none })
        emptyDB ["M1", "M2"]).db.crawl_status = [] := by
  constructor <;> rfl

/-- C5: `detect_raydium_interaction` returns `None` for every wallet,
transfer list and transaction — its call
`self.solana_client.get_sol_balance_change(...)` raises `AttributeError`,
which the function's own `except` converts to `None` — and consequently
`process_transaction` never creates a `trades` row. -/
theorem detect_raydium_always_none :
    (∀ (wallet : WalletRow) (transfers : List TransferRec) (tx : TxRec),
      detect_raydium_interaction wallet transfers tx = none) ∧
    (∀ (mint : String) (db : DB) (wallet : WalletRow) (tx : TxRec),
      (process_transaction mint db wallet tx).trades = db.trades) := by
  refine ⟨detect_none, ?_⟩
  intro mint db wallet tx
  unfold process_transaction
  dsimp only
  split_ifs with h
  · rfl
  · rw [detect_none]
    exact process_loop_trades wallet _ db

/-- C7 (code bug evaluation): the depth guard alone works as specified —
`crawl_wallet_tree` at any generation above the configured maximum of 10
returns before any status update or store write, for every behavior of
the remaining steps — but the claimed consequence fails: crawling the
seed of the 12-transfer chain creates no wallets at all (not wallets
through generation 10), because the session aborts with `AttributeError`
before any write. -/
theorem depth_guard_and_chain_eval :
    (∀ (rest : DB → PyOutcome) (db : DB) (address : String) (im : Bool)
        (pid mid : Option Nat) (g : Nat),
      crawl_wallet_tree rest db address im pid mid (11 + (g : Int)) =
        { db := db, err := none }) ∧
    (∀ (rest : DB → PyOutcome) (db : DB) (seed : String),
      crawl_all_mother_wallets rest db [seed] =
        { db := db,
          err := some (PyErr.attributeError "WalletCrawler" "update_crawl_status") }) := by
  constructor
  · intro rest db address im pid mid g
    unfold crawl_wallet_tree
    rw [if_pos]
    simp only [max_depth]
    omega
  · intro rest db seed
    rfl

end AirdropTracker
